import Mathlib

/-!
# Call-trace model of `main` in `src/ros_main.cpp`

The repository's only source file is the process entry point `main`.  It owns no
algorithm of its own: it builds the collaborators (ROS publisher, visualizer,
kinematic model, main loop, VTK interactor), runs the interactor's event loop, and
then runs the ROS "talker" publish loop.

The embedding below records, in program order, every call `main` itself makes on a
collaborator, together with the arguments it passes.  What the collaborators do is
not part of this file (their sources are not in the repository snapshot); whatever
they return to `main` is a field of `Env`, and every theorem quantifies over all
environments.  Calls that a collaborator makes on another collaborator (for
instance what `MainLoop` does while `Start()` is running) are not calls of `main`
and are not in the trace.

Numbers:
* `double` values are modelled exactly, as IEEE-754 binary64 values
  (`Double`, round to nearest, ties to even);
* `int` is 32-bit two's complement (`wrapInt32`).
-/

namespace RosMain

/-! ## binary64 values -/

/-- A finite binary64 value `(-1)^neg * mant * 2^exp`.  Values produced by `Double.round`
have `mant = 0` or `2^52 ≤ mant < 2^53` (53 significant bits).  The exponent range of
binary64 (subnormals, overflow to infinity) is not modelled; every value that occurs
in `main` lies between `2^(-10)` and `2^10`. -/
structure Double where
  neg : Bool
  mant : Nat
  exp : Int
deriving DecidableEq, Repr

namespace Double

/-- Floor of the binary logarithm, by repeated halving (`fuel` bounds the halvings). -/
def log2Fuel : Nat → Nat → Nat
  | 0, _ => 0
  | fuel + 1, n => if 2 ≤ n then log2Fuel fuel (n / 2) + 1 else 0

/-- Floor of the binary logarithm of `n` (`0` for `n = 0`). -/
def ilog2 (n : Nat) : Nat := log2Fuel n n

/-- The fraction `(n / d) / 2^e` as a pair numerator, denominator. -/
def scaled (n d : Nat) (e : Int) : Nat × Nat :=
  if 0 ≤ e then (n, d * 2 ^ e.toNat) else (n * 2 ^ (-e).toNat, d)

/-- The binary64 value nearest to the rational `n / d` (with the given sign), ties to
even: pick the exponent `e` with `2^52 ≤ (n/d) / 2^e < 2^53`, round the scaled
quotient to an integer, renormalise when rounding carries to `2^53`. -/
def round (neg : Bool) (n d : Nat) : Double :=
  if n = 0 ∨ d = 0 then ⟨neg, 0, 0⟩ else
    let e0 : Int := (ilog2 n : Int) - (ilog2 d : Int) - 52
    let e : Int := if (scaled n d e0).1 / (scaled n d e0).2 < 2 ^ 52 then e0 - 1 else e0
    let q := (scaled n d e).1 / (scaled n d e).2
    let r := (scaled n d e).1 % (scaled n d e).2
    let m := if (scaled n d e).2 < 2 * r ∨ (2 * r = (scaled n d e).2 ∧ q % 2 = 1) then q + 1 else q
    if m = 2 ^ 53 then ⟨neg, 2 ^ 52, e + 1⟩ else ⟨neg, m, e⟩

/-- The value of the decimal source literal `n * 10^(-k)`, e.g. `0.006` is `lit 6 3`. -/
def lit (n k : Nat) : Double := round false n (10 ^ k)

/-- Unary minus. -/
def negate (x : Double) : Double := ⟨!x.neg, x.mant, x.exp⟩

/-- The binary64 product: the exact product, rounded. -/
def mul (a b : Double) : Double :=
  let s := a.exp + b.exp
  if 0 ≤ s then round (xor a.neg b.neg) (a.mant * b.mant * 2 ^ s.toNat) 1
  else round (xor a.neg b.neg) (a.mant * b.mant) (2 ^ (-s).toNat)

/-- Conversion `double → unsigned long` (64 bits): truncation toward zero.  The
conversion is only defined by C++ for values in `[0, 2^64)`; outside that range this
function returns an arbitrary in-range number. -/
def toULong (x : Double) : Nat :=
  if x.neg then 0
  else (if 0 ≤ x.exp then x.mant * 2 ^ x.exp.toNat else x.mant / 2 ^ (-x.exp).toNat) % 2 ^ 64

/-- The rational number a `Double` denotes. -/
def toRat (x : Double) : ℚ := (if x.neg then -1 else 1) * (x.mant : ℚ) * (2 : ℚ) ^ x.exp

end Double

/-! ## The calls `main` makes -/

/-- A dynamically sized matrix of doubles (`Eigen::MatrixXd`, `Eigen::Matrix4d`), by rows. -/
abbrev MatrixXd := List (List Double)

/-- The matrix `Eigen::Matrix4d::Identity()`: coefficient `(i, j)` is `1.0` when `i = j`
and `0.0` otherwise. -/
def Matrix4d.Identity : MatrixXd :=
  (List.range 4).map fun i => (List.range 4).map fun j => if i = j then Double.lit 1 0 else Double.lit 0 0

/-- The constructor arguments of `TDCRModelDVS`, in order. -/
structure TDCRModelDVS where
  length : List Double
  n_disks : Int
  pradius_disks : List Double
  base_frame : MatrixXd
deriving DecidableEq, Repr

/-- A `ros::Publisher` as returned by `advertise`: the topic it is bound to and its queue size. -/
structure Publisher where
  topic : String
  queue_size : Nat
deriving DecidableEq, Repr

/-- The two `vtkCommand` event ids `main` registers an observer for. -/
inductive VtkEvent where
  | TimerEvent
  | KeyPressEvent
deriving DecidableEq, Repr

/-- One call made by `main`, with the arguments passed (or, for `rosOk`, the value
returned). -/
inductive Call where
  | rosInit (argv : List String) (name : String)
  | nodeHandle
  | advertise (topic : String) (queue_size : Nat)
  | rate (frequency : Double)
  | visualizer
  | initScene (assignment : Int)
  | tdcrModelDVS (model : TDCRModelDVS)
  | cout (text : String)
  | forward_kinematics (q : List Double)
  | drawTDCR (n_disks : Int) (pradius_disks : List Double) (radius_disks ro height_disks : Double)
  | updateTDCR (disk_frames : MatrixXd)
  | globalWarningDisplayOff
  | mainLoop (timestep : Double) (assignment : Int)
  | interactorNew
  | getRenderWindow
  | setRenderWindow
  | updateSize (x y : Int)
  | styleNew
  | setInteractorStyle
  | interactorInit
  | createRepeatingTimer (duration : Nat)
  | addObserver (event : VtkEvent)
  | start
  | rosOk (result : Bool)
  | rosInfo (text : String)
  | publish (topic : String) (data : String)
  | spinOnce
  | sleep
deriving DecidableEq, Repr

/-- Everything `main` receives from outside: the command line, and what the
collaborators hand back. -/
structure Env where
  /-- The command line `argv[0], ..., argv[argc-1]` the process was started with. -/
  argv : List String
  /-- The effect of `ros::init`, which takes `argc` and `argv` by reference and may remove
  arguments: the command line it leaves behind. -/
  rosInit : List String → List String
  /-- What `tdcr_model.forward_kinematics(ee_frame, disk_frames, q)` does: the returned
  flag and the `disk_frames` it filled in. -/
  forward_kinematics : TDCRModelDVS → List Double → Bool × MatrixXd
  /-- Whether `renderWindowInteractor->Start()` (the interactor's event loop) ever returns. -/
  startReturns : Bool
  /-- The value of the `i`-th evaluation of `ros::ok()`. -/
  rosOk : Nat → Bool

/-! ## `main`, part 1: scenario selection and simulation set-up (source lines 47–162) -/

/-- The C function `strcmp`: `0` for equal strings, otherwise the sign of the first
difference. -/
def strcmp : List Char → List Char → Int
  | [], [] => 0
  | [], _ :: _ => -1
  | _ :: _, [] => 1
  | a :: as, b :: bs => if a = b then strcmp as bs else if a.toNat < b.toNat then -1 else 1

/-- The scenario string: `argv[1]` when `argc > 1`, else `"a0"` (lines 90–94). -/
def scen (argc : Int) (argv : List String) : String :=
  if argc > 1 then argv.getD 1 "" else "a0"

/-- The mode (lines 96–99): initialised to `4`, set to `4` when the scenario is `"a4"`. -/
def assignment (argc : Int) (argv : List String) : Int :=
  let assignment : Int := 4
  if strcmp (scen argc argv).data "a4".data = 0 then 4 else assignment

/-- Segment lengths (lines 106–108). -/
def length : List Double := [Double.lit 1 1, Double.lit 1 1]

/-- Number of disks (line 109). -/
def n_disks : Int := 8

/-- Pitch radii (lines 110–112). -/
def pradius_disks : List Double := [Double.lit 6 3, Double.lit 5 3]

/-- Base pose (line 114). -/
def base_frame : MatrixXd := Matrix4d.Identity

/-- Disk radius (line 116). -/
def radius_disks : Double := Double.lit 7 3

/-- Disk height (line 117). -/
def height_disks : Double := Double.lit 3 3

/-- Backbone radius (line 118). -/
def ro : Double := Double.lit 1 3

/-- The kinematic model as constructed on line 120. -/
def tdcr_model : TDCRModelDVS := ⟨length, n_disks, pradius_disks, base_frame⟩

/-- The initial actuation `q << -0.005, 0.0025` of type `Eigen::Matrix<double, 2, 1>`
(lines 128–129). -/
def q : List Double := [Double.negate (Double.lit 5 3), Double.lit 25 4]

/-- The simulation timestep in seconds (line 142). -/
def timestep : Double := Double.lit 1 2

/-- The publisher returned by `n.advertise<std_msgs::String>("chatter", 1000)` (line 77). -/
def chatter_pub : Publisher := ⟨"chatter", 1000⟩

/-- The calls of `main` from `ros::init` up to and including
`renderWindowInteractor->Start()` (lines 47–162), in program order. -/
def setup (env : Env) : List Call :=
  let argv := env.rosInit env.argv
  let argc : Int := argv.length
  let assignment := assignment argc argv
  [.rosInit env.argv "talker", .nodeHandle,
   .advertise chatter_pub.topic chatter_pub.queue_size, .rate (Double.lit 10 0),
   .visualizer, .initScene assignment, .tdcrModelDVS tdcr_model]
  ++ (if assignment = 4 then
        [.cout "Setting up assignment 4...\n",
         .cout "Choose control scenario - (0) TDCR or (1) CTCR: ", .cout "\n",
         .forward_kinematics q]
        ++ (if (env.forward_kinematics tdcr_model q).1 then
              [.drawTDCR n_disks pradius_disks radius_disks ro height_disks,
               .updateTDCR (env.forward_kinematics tdcr_model q).2]
            else [])
      else [])
  ++ [.globalWarningDisplayOff, .mainLoop timestep assignment, .interactorNew,
      .getRenderWindow, .setRenderWindow, .updateSize 1200 700, .styleNew,
      .setInteractorStyle, .interactorInit,
      .createRepeatingTimer (Double.toULong (Double.mul timestep (Double.lit 1000 0))),
      .addObserver .TimerEvent, .addObserver .KeyPressEvent, .start]

/-! ## `main`, part 2: the publish loop (source lines 178–215) -/

/-- Reduction of an integer to the range of a 32-bit two's-complement `int`: what
`++count` leaves in the variable on the targets ROS runs on.  (The C++ standard leaves
signed overflow undefined.) -/
def wrapInt32 (x : Int) : Int := (x + 2147483648) % 4294967296 - 2147483648

/-- The loop `while (ros::ok()) { ... ++count; }`, unrolled for at most `fuel`
iterations.  `i` is the number of times `ros::ok()` has been evaluated before, `count`
the current value of the `int` variable `count`.  `ss << count` writes the decimal
rendering of `count` (a leading `-` for negative values). -/
def publishLoop (ok : Nat → Bool) : Nat → Nat → Int → List Call
  | 0, _, _ => []
  | fuel + 1, i, count =>
    if ok i then
      [.rosOk true, .rosInfo ("hello world " ++ toString count),
       .publish chatter_pub.topic ("hello world " ++ toString count), .spinOnce, .sleep]
      ++ publishLoop ok fuel (i + 1) (wrapInt32 (count + 1))
    else [.rosOk false]

/-- The call trace of `main`: the set-up, and, once `Start()` has returned, the publish
loop started with `count = 0`.  `fuel` bounds the number of loop iterations that are
observed (the loop runs for as long as `ros::ok()` holds). -/
def main (env : Env) (fuel : Nat) : List Call :=
  setup env ++ (if env.startReturns then publishLoop env.rosOk fuel 0 0 else [])

/-! ## Observations on a trace -/

/-- Calls on the visualizer object `vis`. -/
def Call.isVisualizerCall : Call → Bool
  | .initScene _ => true
  | .drawTDCR _ _ _ _ _ => true
  | .updateTDCR _ => true
  | .getRenderWindow => true
  | _ => false

/-- Calls that put robot geometry or a pose on screen: `drawTDCR` and `updateTDCR`. -/
def Call.isPoseCall : Call → Bool
  | .drawTDCR _ _ _ _ _ => true
  | .updateTDCR _ => true
  | _ => false

/-- The `disk_frames` of an `updateTDCR` call. -/
def Call.updated? : Call → Option MatrixXd
  | .updateTDCR f => some f
  | _ => none

/-- The mode of an `initScene` call. -/
def Call.scene? : Call → Option Int
  | .initScene a => some a
  | _ => none

/-- The model of a `TDCRModelDVS` construction. -/
def Call.model? : Call → Option TDCRModelDVS
  | .tdcrModelDVS m => some m
  | _ => none

/-- The actuation vector of a `forward_kinematics` call. -/
def Call.actuation? : Call → Option (List Double)
  | .forward_kinematics v => some v
  | _ => none

/-- The arguments (timestep, mode) of a `MainLoop` construction. -/
def Call.loopArgs? : Call → Option (Double × Int)
  | .mainLoop t a => some (t, a)
  | _ => none

/-- The period of a `CreateRepeatingTimer` call, in milliseconds. -/
def Call.timer? : Call → Option Nat
  | .createRepeatingTimer d => some d
  | _ => none

/-- The observer registrations. -/
def Call.observer? : Call → Option VtkEvent
  | .addObserver e => some e
  | _ => none

/-- The topic and data of a `publish` call. -/
def Call.published? : Call → Option (String × String)
  | .publish t d => some (t, d)
  | _ => none

/-- The calls that occur in the publish loop. -/
def Call.isLoopCall : Call → Bool
  | .rosOk _ => true
  | .rosInfo _ => true
  | .publish _ _ => true
  | .spinOnce => true
  | .sleep => true
  | _ => false

/-- The messages published in a trace, in order: (topic, data). -/
def published (t : List Call) : List (String × String) := t.filterMap Call.published?

/-- An environment in which forward kinematics succeeds, `Start()` returns and
`ros::ok()` holds forever; started as `talker a4`. -/
def envRunning : Env :=
  ⟨["talker", "a4"], id, fun _ _ => (true, [[Double.lit 1 0]]), true, fun _ => true⟩

/-- An environment in which forward kinematics fails and the interactor never returns;
started without a scenario argument. -/
def envStuck : Env :=
  ⟨["talker"], id, fun _ _ => (false, []), false, fun _ => false⟩

/-- An environment started with an unrecognised scenario, in which `ros::ok()` holds
three times. -/
def envThree : Env :=
  ⟨["talker", "zz", "x"], id, fun _ _ => (true, []), true, fun i => decide (i < 3)⟩


/-! ## Evaluation of the floating-point literals -/

theorem lit_0_0 : Double.lit 0 0 = ⟨false, 0, 0⟩ := by decide

theorem lit_1_0 : Double.lit 1 0 = ⟨false, 4503599627370496, -52⟩ := by decide

theorem lit_1_1 : Double.lit 1 1 = ⟨false, 7205759403792794, -56⟩ := by decide

theorem lit_1_2 : Double.lit 1 2 = ⟨false, 5764607523034235, -59⟩ := by decide

theorem lit_6_3 : Double.lit 6 3 = ⟨false, 6917529027641082, -60⟩ := by decide

theorem lit_5_3 : Double.lit 5 3 = ⟨false, 5764607523034235, -60⟩ := by decide

theorem lit_1000_0 : Double.lit 1000 0 = ⟨false, 8796093022208000, -43⟩ := by decide

theorem lit_25_4 : Double.lit 25 4 = ⟨false, 5764607523034235, -61⟩ := by decide

set_option maxRecDepth 8000 in
theorem mul_timestep :
    Double.mul timestep (Double.lit 1000 0) = ⟨false, 5629499534213120, -49⟩ := by
  decide

theorem toRat_pos (x : Double) (hs : x.neg = false) (hm : 0 < x.mant) : 0 < x.toRat := by
  unfold Double.toRat
  rw [hs]
  have h1 : (0 : ℚ) < (x.mant : ℚ) := by exact_mod_cast hm
  have h2 : (0 : ℚ) < (2 : ℚ) ^ x.exp := zpow_pos (by norm_num) _
  simpa using mul_pos h1 h2

/-! ## Shape of the trace -/

theorem assignment_eq (argc : Int) (argv : List String) : assignment argc argv = 4 := by
  simp [assignment]

theorem setup_eq (env : Env) :
    setup env =
      [.rosInit env.argv "talker", .nodeHandle, .advertise "chatter" 1000,
       .rate (Double.lit 10 0), .visualizer, .initScene 4, .tdcrModelDVS tdcr_model,
       .cout "Setting up assignment 4...\n",
       .cout "Choose control scenario - (0) TDCR or (1) CTCR: ", .cout "\n",
       .forward_kinematics q]
      ++ (if (env.forward_kinematics tdcr_model q).1 then
            [.drawTDCR n_disks pradius_disks radius_disks ro height_disks,
             .updateTDCR (env.forward_kinematics tdcr_model q).2]
          else [])
      ++ [.globalWarningDisplayOff, .mainLoop timestep 4, .interactorNew,
          .getRenderWindow, .setRenderWindow, .updateSize 1200 700, .styleNew,
          .setInteractorStyle, .interactorInit,
          .createRepeatingTimer (Double.toULong (Double.mul timestep (Double.lit 1000 0))),
          .addObserver .TimerEvent, .addObserver .KeyPressEvent, .start] := by
  simp [setup, assignment_eq, chatter_pub]

theorem setup_not_loopCall (env : Env) : ∀ x ∈ setup env, x.isLoopCall = false := by
  rw [setup_eq]
  cases (env.forward_kinematics tdcr_model q).1 <;> simp [Call.isLoopCall]

theorem publishLoop_isLoopCall (ok : Nat → Bool) (fuel : Nat) :
    ∀ (i : Nat) (count : Int), ∀ x ∈ publishLoop ok fuel i count, x.isLoopCall = true := by
  induction fuel with
  | zero => intro i count x hx; simp [publishLoop] at hx
  | succ n ih =>
    intro i count x hx
    unfold publishLoop at hx
    split at hx
    · simp only [List.mem_append, List.mem_cons, List.mem_singleton, List.not_mem_nil,
        or_false] at hx
      rcases hx with (h | h | h | h | h) | h
      · subst h; rfl
      · subst h; rfl
      · subst h; rfl
      · subst h; rfl
      · subst h; rfl
      · exact ih _ _ x h
    · simp at hx; subst hx; rfl

theorem filterMap_publishLoop {α : Type} (f : Call → Option α)
    (hf : ∀ x : Call, x.isLoopCall = true → f x = none) (ok : Nat → Bool) (fuel i : Nat)
    (count : Int) : (publishLoop ok fuel i count).filterMap f = [] := by
  rw [List.filterMap_eq_nil_iff]
  intro x hx
  exact hf x (publishLoop_isLoopCall ok fuel i count x hx)

theorem filterMap_main {α : Type} (f : Call → Option α)
    (hf : ∀ x : Call, x.isLoopCall = true → f x = none) (env : Env) (fuel : Nat) :
    (main env fuel).filterMap f = (setup env).filterMap f := by
  unfold main
  rw [List.filterMap_append]
  split
  · rw [filterMap_publishLoop f hf]; simp
  · simp

theorem filter_main (p : Call → Bool) (hp : ∀ x : Call, x.isLoopCall = true → p x = false)
    (env : Env) (fuel : Nat) : (main env fuel).filter p = (setup env).filter p := by
  unfold main
  rw [List.filter_append]
  have h : ∀ l : List Call, (∀ x ∈ l, x.isLoopCall = true) → l.filter p = [] := by
    intro l hl
    rw [List.filter_eq_nil_iff]
    intro x hx
    simp [hp x (hl x hx)]
  split
  · rw [h _ (publishLoop_isLoopCall _ _ _ _)]; simp
  · simp

theorem scenes_main (env : Env) (fuel : Nat) : (main env fuel).filterMap Call.scene? = [4] := by
  rw [filterMap_main _ (by intro x; cases x <;> simp [Call.isLoopCall, Call.scene?]), setup_eq]
  cases (env.forward_kinematics tdcr_model q).1 <;> simp [Call.scene?]

theorem models_main (env : Env) (fuel : Nat) :
    (main env fuel).filterMap Call.model? = [tdcr_model] := by
  rw [filterMap_main _ (by intro x; cases x <;> simp [Call.isLoopCall, Call.model?]), setup_eq]
  cases (env.forward_kinematics tdcr_model q).1 <;> simp [Call.model?]

theorem actuations_main (env : Env) (fuel : Nat) :
    (main env fuel).filterMap Call.actuation? = [q] := by
  rw [filterMap_main _ (by intro x; cases x <;> simp [Call.isLoopCall, Call.actuation?]),
    setup_eq]
  cases (env.forward_kinematics tdcr_model q).1 <;> simp [Call.actuation?]

theorem loopArgs_main (env : Env) (fuel : Nat) :
    (main env fuel).filterMap Call.loopArgs? = [(timestep, 4)] := by
  rw [filterMap_main _ (by intro x; cases x <;> simp [Call.isLoopCall, Call.loopArgs?]),
    setup_eq]
  cases (env.forward_kinematics tdcr_model q).1 <;> simp [Call.loopArgs?]

theorem timers_main (env : Env) (fuel : Nat) :
    (main env fuel).filterMap Call.timer? =
      [Double.toULong (Double.mul timestep (Double.lit 1000 0))] := by
  rw [filterMap_main _ (by intro x; cases x <;> simp [Call.isLoopCall, Call.timer?]), setup_eq]
  cases (env.forward_kinematics tdcr_model q).1 <;> simp [Call.timer?]

theorem observers_main (env : Env) (fuel : Nat) :
    (main env fuel).filterMap Call.observer? = [.TimerEvent, .KeyPressEvent] := by
  rw [filterMap_main _ (by intro x; cases x <;> simp [Call.isLoopCall, Call.observer?]),
    setup_eq]
  cases (env.forward_kinematics tdcr_model q).1 <;> simp [Call.observer?]

theorem poseCalls_main (env : Env) (fuel : Nat) :
    (main env fuel).filter Call.isPoseCall =
      if (env.forward_kinematics tdcr_model q).1 then
        [.drawTDCR n_disks pradius_disks radius_disks ro height_disks,
         .updateTDCR (env.forward_kinematics tdcr_model q).2]
      else [] := by
  rw [filter_main _ (by intro x; cases x <;> simp [Call.isLoopCall, Call.isPoseCall]), setup_eq]
  cases (env.forward_kinematics tdcr_model q).1 <;> simp [Call.isPoseCall]

theorem visualizerCalls_main (env : Env) (fuel : Nat) :
    (main env fuel).filter Call.isVisualizerCall =
      [.initScene 4]
      ++ (if (env.forward_kinematics tdcr_model q).1 then
            [.drawTDCR n_disks pradius_disks radius_disks ro height_disks,
             .updateTDCR (env.forward_kinematics tdcr_model q).2]
          else [])
      ++ [.getRenderWindow] := by
  rw [filter_main _ (by intro x; cases x <;> simp [Call.isLoopCall, Call.isVisualizerCall]),
    setup_eq]
  cases (env.forward_kinematics tdcr_model q).1 <;> simp [Call.isVisualizerCall]


/-! ## The publish loop -/

theorem wrapInt32_id (c : Int) (hlo : -2147483648 ≤ c) (hhi : c < 2147483648) :
    wrapInt32 c = c := by
  unfold wrapInt32; omega

theorem wrapInt32_succ_add (c : Int) (k : Nat) :
    wrapInt32 (wrapInt32 (c + 1) + (k : Int)) = wrapInt32 (c + ((k + 1 : Nat) : Int)) := by
  unfold wrapInt32; push_cast; omega

theorem wrapInt32_range (c : Int) : -2147483648 ≤ wrapInt32 c ∧ wrapInt32 c < 2147483648 := by
  unfold wrapInt32; omega

theorem wrapInt32_period (k : Nat) :
    wrapInt32 ((k + 4294967296 : Nat) : Int) = wrapInt32 (k : Int) := by
  unfold wrapInt32; push_cast; omega

theorem published_setup (env : Env) : published (setup env) = [] := by
  unfold published
  rw [List.filterMap_eq_nil_iff]
  intro x hx
  have h := setup_not_loopCall env x hx
  cases x <;> simp_all [Call.isLoopCall, Call.published?]

theorem published_publishLoop (ok : Nat → Bool) (fuel : Nat) :
    ∀ (i : Nat) (count : Int) (k : Nat), k < fuel → (∀ j, j ≤ k → ok (i + j) = true) →
      -2147483648 ≤ count → count < 2147483648 →
      (published (publishLoop ok fuel i count))[k]? =
        some ("chatter", "hello world " ++ toString (wrapInt32 (count + (k : Int)))) := by
  induction fuel with
  | zero => intro i count k hk; omega
  | succ n ih =>
    intro i count k hk hok hlo hhi
    have h0 : ok i = true := by simpa using hok 0 (Nat.zero_le _)
    unfold publishLoop
    rw [if_pos h0]
    cases k with
    | zero =>
      simp [published, Call.published?, chatter_pub, wrapInt32_id count hlo hhi]
    | succ k =>
      have hr := wrapInt32_range (count + 1)
      have h := ih (i + 1) (wrapInt32 (count + 1)) k (by omega)
        (fun j hj => by
          have := hok (j + 1) (by omega)
          rwa [show i + 1 + j = i + (j + 1) by omega]) hr.1 hr.2
      rw [wrapInt32_succ_add] at h
      simpa [published, Call.published?] using h

theorem published_append (a b : List Call) :
    published (a ++ b) = published a ++ published b := by
  unfold published
  exact List.filterMap_append _ _ _

theorem published_main (env : Env) (fuel k : Nat) (hs : env.startReturns = true)
    (hk : k < fuel) (hok : ∀ j, j ≤ k → env.rosOk j = true) :
    (published (main env fuel))[k]? =
      some ("chatter", "hello world " ++ toString (wrapInt32 (k : Int))) := by
  have h := published_publishLoop env.rosOk fuel 0 0 k hk
    (fun j hj => by rw [Nat.zero_add]; exact hok j hj) (by norm_num) (by norm_num)
  rw [Int.zero_add] at h
  unfold main
  rw [if_pos hs, published_append, published_setup, List.nil_append]
  exact h

theorem published_main_stuck (env : Env) (fuel : Nat) (hs : env.startReturns = false) :
    published (main env fuel) = [] := by
  unfold main
  rw [hs, published_append, published_setup]
  rfl

theorem toString_natCast (k : Nat) : toString ((k : Nat) : Int) = toString k := rfl

theorem toString_intMin : toString (wrapInt32 ((2147483648 : Nat) : Int)) = "-2147483648" := by
  have h : wrapInt32 ((2147483648 : Nat) : Int) = -2147483648 := by
    unfold wrapInt32; norm_num
  rw [h]
  decide

theorem starts_main (env : Env) (fuel : Nat) :
    (main env fuel).filter (fun c => decide (c = Call.start)) = [Call.start] := by
  rw [filter_main _ (by intro x; cases x <;> simp [Call.isLoopCall]), setup_eq]
  cases (env.forward_kinematics tdcr_model q).1 <;> simp

theorem updates_main (env : Env) (fuel : Nat) :
    (main env fuel).filterMap Call.updated? =
      if (env.forward_kinematics tdcr_model q).1 then [(env.forward_kinematics tdcr_model q).2]
      else [] := by
  rw [filterMap_main _ (by intro x; cases x <;> simp [Call.isLoopCall, Call.updated?]), setup_eq]
  cases (env.forward_kinematics tdcr_model q).1 <;> simp [Call.updated?]

theorem lit_toRat_bounds :
    |(Double.lit 1 1).toRat - 1 / 10| ≤ 1 / 2 ^ 57
    ∧ |(Double.lit 6 3).toRat - 6 / 1000| ≤ 1 / 2 ^ 61
    ∧ |(Double.lit 5 3).toRat - 5 / 1000| ≤ 1 / 2 ^ 61
    ∧ |(Double.lit 25 4).toRat - 25 / 10000| ≤ 1 / 2 ^ 62
    ∧ |(Double.lit 1 2).toRat - 1 / 100| ≤ 1 / 2 ^ 60 := by
  rw [lit_1_1, lit_6_3, lit_5_3, lit_25_4, lit_1_2]
  norm_num [Double.toRat, abs_le]

theorem identity_toRat :
    Matrix4d.Identity.map (List.map Double.toRat) =
      [[1, 0, 0, 0], [0, 1, 0, 0], [0, 0, 1, 0], [0, 0, 0, 1]] := by
  simp [Matrix4d.Identity, List.range, List.range.loop, lit_1_0, lit_0_0, Double.toRat]
  norm_num

/-! ## The claims -/

/-- C1: whatever the initial `forward_kinematics` call returns, `main` makes that call
exactly once, the trace contains an `updateTDCR` call if and only if the call returned
success, on success the frames pushed are exactly the `disk_frames` the call filled in,
and on failure the trace contains neither `drawTDCR` nor `updateTDCR`. -/
theorem C1_pose_pushed_iff_fk_success (env : Env) (fuel : Nat) :
    (main env fuel).filterMap Call.actuation? = [q]
    ∧ ((∃ f, Call.updateTDCR f ∈ main env fuel) ↔
        (env.forward_kinematics tdcr_model q).1 = true)
    ∧ (main env fuel).filterMap Call.updated? =
        (if (env.forward_kinematics tdcr_model q).1 then
          [(env.forward_kinematics tdcr_model q).2] else [])
    ∧ ((env.forward_kinematics tdcr_model q).1 = false →
        (main env fuel).filter Call.isPoseCall = []) := by
  refine ⟨actuations_main env fuel, ?_, updates_main env fuel, ?_⟩
  · have hu := updates_main env fuel
    constructor
    · rintro ⟨f, hf⟩
      have hm : f ∈ (main env fuel).filterMap Call.updated? :=
        List.mem_filterMap.mpr ⟨_, hf, rfl⟩
      rw [hu] at hm
      cases h : (env.forward_kinematics tdcr_model q).1
      · rw [h] at hm; simp at hm
      · rfl
    · intro h
      rw [h] at hu
      have hm : (env.forward_kinematics tdcr_model q).2 ∈
          (main env fuel).filterMap Call.updated? := by rw [hu]; simp
      obtain ⟨c, hc, hcf⟩ := List.mem_filterMap.mp hm
      cases c <;> simp [Call.updated?] at hcf
      subst hcf
      exact ⟨_, hc⟩
  · intro h
    rw [poseCalls_main, h]
    rfl

/-- C2 (as stated, refuted): in the run `talker a4` the actuation vector passed to
`forward_kinematics` has 2 components while the model was constructed from arrays of 2
segments, so its length is not twice the number of segments. -/
theorem C2_counterexample :
    ∃ v m, (main envRunning 0).filterMap Call.actuation? = [v]
      ∧ (main envRunning 0).filterMap Call.model? = [m]
      ∧ v.length = 2 ∧ 2 * m.length.length = 4
      ∧ v.length ≠ 2 * m.length.length :=
  ⟨q, tdcr_model, actuations_main _ _, models_main _ _, rfl, rfl, by decide⟩

/-- C2 (amended): for every command line and environment, the actuation vector `main`
passes to `forward_kinematics` has exactly 2 components, and the model it is evaluated on
was constructed from length and pitch-radius arrays of exactly 2 segments: one actuation
component per segment. -/
theorem C2_one_actuation_component_per_segment (env : Env) (fuel : Nat) :
    ∃ v m, (main env fuel).filterMap Call.actuation? = [v]
      ∧ (main env fuel).filterMap Call.model? = [m]
      ∧ v.length = 2 ∧ m.length.length = 2 ∧ m.pradius_disks.length = 2
      ∧ v.length = m.length.length :=
  ⟨q, tdcr_model, actuations_main _ _, models_main _ _, rfl, rfl, rfl, rfl⟩

/-- C3: for every command line and environment, `main` constructs the kinematic model
exactly once, from 2 segment lengths that are both the double `0.1`, 8 disks, the pitch
radii `0.006` and `0.005`, and the 4x4 identity as base pose (each double literal being
the binary64 value nearest to the decimal it is written as). -/
theorem C3_model_constructed_with_defaults (env : Env) (fuel : Nat) :
    (main env fuel).filterMap Call.model? =
      [⟨[Double.lit 1 1, Double.lit 1 1], 8, [Double.lit 6 3, Double.lit 5 3],
        Matrix4d.Identity⟩]
    ∧ Matrix4d.Identity.map (List.map Double.toRat) =
        [[1, 0, 0, 0], [0, 1, 0, 0], [0, 0, 1, 0], [0, 0, 0, 1]]
    ∧ |(Double.lit 1 1).toRat - 1 / 10| ≤ 1 / 2 ^ 57
    ∧ |(Double.lit 6 3).toRat - 6 / 1000| ≤ 1 / 2 ^ 61
    ∧ |(Double.lit 5 3).toRat - 5 / 1000| ≤ 1 / 2 ^ 61 :=
  ⟨models_main env fuel, identity_toRat, lit_toRat_bounds.1, lit_toRat_bounds.2.1,
    lit_toRat_bounds.2.2.1⟩

/-- C4: for every command line and environment, `main` creates exactly one repeating
timer, its period is 10 (milliseconds), the timestep handed to `MainLoop` is the double
`0.01`, and the period is the double product `timestep * 1000.0`, which is exactly 10
(the exact product is within half a unit in the last place of 10, and nothing is lost in
the conversion to an integer number of milliseconds). -/
theorem C4_timer_period_matches_timestep (env : Env) (fuel : Nat) :
    (main env fuel).filterMap Call.timer? = [10]
    ∧ ((main env fuel).filterMap Call.loopArgs?).map Prod.fst = [Double.lit 1 2]
    ∧ ((main env fuel).filterMap Call.timer?).map (fun p => (p : ℚ)) =
        ((main env fuel).filterMap Call.loopArgs?).map
          (fun a => (Double.mul a.1 (Double.lit 1000 0)).toRat)
    ∧ (Double.mul (Double.lit 1 2) (Double.lit 1000 0)).toRat = 10
    ∧ |(10 : ℚ) - (Double.lit 1 2).toRat * (Double.lit 1000 0).toRat| ≤ 1 / 2 ^ 50
    ∧ |(Double.lit 1 2).toRat - 1 / 100| ≤ 1 / 2 ^ 60 := by
  have hmul : (Double.mul timestep (Double.lit 1000 0)).toRat = 10 := by
    rw [mul_timestep]; norm_num [Double.toRat]
  have hper : Double.toULong (Double.mul timestep (Double.lit 1000 0)) = 10 := by
    rw [mul_timestep]; decide
  refine ⟨?_, ?_, ?_, hmul, ?_, lit_toRat_bounds.2.2.2.2⟩
  · rw [timers_main, hper]
  · rw [loopArgs_main]; rfl
  · rw [timers_main, loopArgs_main, hper]
    simp [hmul]
  · rw [lit_1_2, lit_1000_0]
    norm_num [Double.toRat, abs_le]

/-- C7: for every command line and environment, the parameters `main` constructs meet the
data-model constraints: the model is constructed once, with at least 2 disks, positive
segment lengths and positive pitch radii, and `MainLoop` is constructed once, with a
positive timestep. -/
theorem C7_constructed_parameters_positive (env : Env) (fuel : Nat) :
    ((main env fuel).filterMap Call.model?).length = 1
    ∧ ((main env fuel).filterMap Call.loopArgs?).length = 1
    ∧ (∀ m, Call.tdcrModelDVS m ∈ main env fuel →
        2 ≤ m.n_disks ∧ (∀ l ∈ m.length, 0 < l.toRat) ∧ (∀ r ∈ m.pradius_disks, 0 < r.toRat))
    ∧ (∀ ts a, Call.mainLoop ts a ∈ main env fuel → 0 < ts.toRat) := by
  refine ⟨by rw [models_main]; rfl, by rw [loopArgs_main]; rfl, ?_, ?_⟩
  · intro m hm
    have h : m ∈ (main env fuel).filterMap Call.model? := List.mem_filterMap.mpr ⟨_, hm, rfl⟩
    rw [models_main, List.mem_singleton] at h
    subst h
    refine ⟨by decide, ?_, ?_⟩
    · intro l hl
      simp only [tdcr_model, length, List.mem_cons, List.mem_singleton, List.not_mem_nil,
        or_false, or_self] at hl
      subst hl
      exact toRat_pos _ (by rw [lit_1_1]) (by rw [lit_1_1]; decide)
    · intro r hr
      simp only [tdcr_model, pradius_disks, List.mem_cons, List.mem_singleton,
        List.not_mem_nil, or_false] at hr
      rcases hr with hr | hr
      · subst hr; exact toRat_pos _ (by rw [lit_6_3]) (by rw [lit_6_3]; decide)
      · subst hr; exact toRat_pos _ (by rw [lit_5_3]) (by rw [lit_5_3]; decide)
  · intro ts a hm
    have h : (ts, a) ∈ (main env fuel).filterMap Call.loopArgs? :=
      List.mem_filterMap.mpr ⟨_, hm, rfl⟩
    rw [loopArgs_main, List.mem_singleton] at h
    have hts : ts = timestep := congrArg Prod.fst h
    subst hts
    exact toRat_pos _ (by rw [timestep, lit_1_2]) (by rw [timestep, lit_1_2]; decide)

/-- C5: with `int count` the loop stamps the k-th message with `k` only while `k` fits
an `int`.  In any run where `Start()` returns and `ros::ok()` keeps holding, every message
number `k < 2^31` on "chatter" is `"hello world "` followed by the decimal rendering of
`k`, but message number `2^31` is `"hello world -2147483648"`, which is not
`"hello world 2147483648"`: `++count` has overflowed. -/
theorem C5_count_overflows_int (env : Env) (hs : env.startReturns = true)
    (hok : ∀ j, env.rosOk j = true) :
    (∀ k fuel : Nat, k < 2147483648 → k < fuel →
        (published (main env fuel))[k]? = some ("chatter", "hello world " ++ toString k))
    ∧ (∀ fuel : Nat, 2147483648 < fuel →
        (published (main env fuel))[2147483648]? =
          some ("chatter", "hello world -2147483648"))
    ∧ "hello world -2147483648" ≠ "hello world " ++ toString (2147483648 : Nat) := by
  refine ⟨?_, ?_, by decide⟩
  · intro k fuel hk hf
    rw [published_main env fuel k hs hf (fun j _ => hok j),
      wrapInt32_id _ (by omega) (by omega), toString_natCast]
  · intro fuel hf
    rw [published_main env fuel 2147483648 hs hf (fun j _ => hok j), toString_intMin]
    rfl

/-- C5, at a concrete run: `talker a4` with `ros::ok()` always true. -/
theorem C5_count_overflows_int_witness :
    (∀ k fuel : Nat, k < 2147483648 → k < fuel →
        (published (main envRunning fuel))[k]? =
          some ("chatter", "hello world " ++ toString k))
    ∧ (∀ fuel : Nat, 2147483648 < fuel →
        (published (main envRunning fuel))[2147483648]? =
          some ("chatter", "hello world -2147483648"))
    ∧ "hello world -2147483648" ≠ "hello world " ++ toString (2147483648 : Nat) :=
  C5_count_overflows_int envRunning rfl (fun _ => rfl)

/-- C6: the strings are not unique.  In any run where `Start()` returns and `ros::ok()`
keeps holding, iteration `i` publishes `"hello world "` followed by the rendering of `i`
reduced to the range of an `int`, and iteration `i + 2^32` publishes the same data (an
`int` has only `2^32` values); so iterations `0` and `2^32` both publish
`"hello world 0"`. -/
theorem C6_message_repeats_after_wraparound (env : Env) (hs : env.startReturns = true)
    (hok : ∀ j, env.rosOk j = true) (i fuel : Nat) (hf : i + 4294967296 < fuel) :
    (published (main env fuel))[i]? =
      some ("chatter", "hello world " ++ toString (wrapInt32 (i : Int)))
    ∧ (published (main env fuel))[i + 4294967296]? = (published (main env fuel))[i]? := by
  have h1 := published_main env fuel i hs (by omega) (fun j _ => hok j)
  have h2 := published_main env fuel (i + 4294967296) hs hf (fun j _ => hok j)
  rw [wrapInt32_period] at h2
  exact ⟨h1, by rw [h1, h2]⟩

/-- C6, at a concrete run: `talker a4` with `ros::ok()` always true; the messages of
iterations `0` and `2^32` are both `"hello world 0"`. -/
theorem C6_message_repeats_after_wraparound_witness :
    (published (main envRunning 4294967297))[0]? = some ("chatter", "hello world 0")
    ∧ (published (main envRunning 4294967297))[0 + 4294967296]? =
        (published (main envRunning 4294967297))[0]? :=
  C6_message_repeats_after_wraparound envRunning rfl (fun _ => rfl) 0 4294967297 (by decide)

/-- C8: in every run the visualizer calls of `main` are, in order, `initScene`, then (only
when forward kinematics succeeded) `drawTDCR` and `updateTDCR`, then `getRenderWindow`:
`initScene` is called once and first, `drawTDCR` at most once, `updateTDCR` once exactly
when `drawTDCR` is, and `getRenderWindow` once.  In the full trace `drawTDCR` is directly
followed by `updateTDCR`, and `getRenderWindow` directly by `SetRenderWindow`. -/
theorem C8_visualizer_call_multiplicities (env : Env) (fuel : Nat) :
    (main env fuel).filter Call.isVisualizerCall =
      [.initScene 4]
      ++ (if (env.forward_kinematics tdcr_model q).1 then
            [.drawTDCR n_disks pradius_disks radius_disks ro height_disks,
             .updateTDCR (env.forward_kinematics tdcr_model q).2]
          else [])
      ++ [.getRenderWindow]
    ∧ (∃ pre post, main env fuel =
          pre ++ (if (env.forward_kinematics tdcr_model q).1 then
            [.drawTDCR n_disks pradius_disks radius_disks ro height_disks,
             .updateTDCR (env.forward_kinematics tdcr_model q).2]
          else []) ++ post
        ∧ pre.filter Call.isPoseCall = [] ∧ post.filter Call.isPoseCall = [])
    ∧ (∃ pre post, main env fuel = pre ++ [.getRenderWindow, .setRenderWindow] ++ post) := by
  refine ⟨visualizerCalls_main env fuel, ?_, ?_⟩
  · refine ⟨[.rosInit env.argv "talker", .nodeHandle, .advertise "chatter" 1000,
       .rate (Double.lit 10 0), .visualizer, .initScene 4, .tdcrModelDVS tdcr_model,
       .cout "Setting up assignment 4...\n",
       .cout "Choose control scenario - (0) TDCR or (1) CTCR: ", .cout "\n",
       .forward_kinematics q],
      [.globalWarningDisplayOff, .mainLoop timestep 4, .interactorNew,
          .getRenderWindow, .setRenderWindow, .updateSize 1200 700, .styleNew,
          .setInteractorStyle, .interactorInit,
          .createRepeatingTimer (Double.toULong (Double.mul timestep (Double.lit 1000 0))),
          .addObserver .TimerEvent, .addObserver .KeyPressEvent, .start]
        ++ (if env.startReturns then publishLoop env.rosOk fuel 0 0 else []), ?_, rfl, ?_⟩
    · unfold main
      rw [setup_eq]
      simp only [List.append_assoc]
    · rw [List.filter_append]
      have h : (if env.startReturns then publishLoop env.rosOk fuel 0 0 else []).filter
          Call.isPoseCall = [] := by
        rw [List.filter_eq_nil_iff]
        intro x hx
        have hl : x.isLoopCall = true := by
          split at hx
          · exact publishLoop_isLoopCall _ _ _ _ x hx
          · simp at hx
        cases x <;> simp_all [Call.isLoopCall, Call.isPoseCall]
      rw [h]
      rfl
  · refine ⟨[.rosInit env.argv "talker", .nodeHandle, .advertise "chatter" 1000,
       .rate (Double.lit 10 0), .visualizer, .initScene 4, .tdcrModelDVS tdcr_model,
       .cout "Setting up assignment 4...\n",
       .cout "Choose control scenario - (0) TDCR or (1) CTCR: ", .cout "\n",
       .forward_kinematics q]
      ++ (if (env.forward_kinematics tdcr_model q).1 then
            [.drawTDCR n_disks pradius_disks radius_disks ro height_disks,
             .updateTDCR (env.forward_kinematics tdcr_model q).2]
          else [])
      ++ [.globalWarningDisplayOff, .mainLoop timestep 4, .interactorNew],
      [.updateSize 1200 700, .styleNew,
          .setInteractorStyle, .interactorInit,
          .createRepeatingTimer (Double.toULong (Double.mul timestep (Double.lit 1000 0))),
          .addObserver .TimerEvent, .addObserver .KeyPressEvent, .start]
        ++ (if env.startReturns then publishLoop env.rosOk fuel 0 0 else []), ?_⟩
    unfold main
    rw [setup_eq]
    simp only [List.append_assoc, List.cons_append, List.nil_append]

/-- C9: the scenario selector has no effect.  For every `argc` and `argv` the computed
mode is 4; in every run `initScene` and the `MainLoop` constructor each receive 4, and
`forward_kinematics` is called with the initial actuation `(-0.005, 0.0025)`. -/
theorem C9_mode_is_always_four (env : Env) (fuel : Nat) :
    (∀ (argc : Int) (argv : List String), assignment argc argv = 4)
    ∧ (main env fuel).filterMap Call.scene? = [4]
    ∧ ((main env fuel).filterMap Call.loopArgs?).map Prod.snd = [4]
    ∧ (main env fuel).filterMap Call.scene? =
        ((main env fuel).filterMap Call.loopArgs?).map Prod.snd
    ∧ (main env fuel).filterMap Call.actuation? =
        [[Double.negate (Double.lit 5 3), Double.lit 25 4]]
    ∧ |(Double.negate (Double.lit 5 3)).toRat - (-5 / 1000)| ≤ 1 / 2 ^ 61
    ∧ |(Double.lit 25 4).toRat - 25 / 10000| ≤ 1 / 2 ^ 62 := by
  refine ⟨assignment_eq, scenes_main env fuel, by rw [loopArgs_main]; rfl,
    by rw [scenes_main, loopArgs_main]; rfl, actuations_main env fuel, ?_,
    lit_toRat_bounds.2.2.2.1⟩
  rw [lit_5_3]
  norm_num [Double.toRat, Double.negate, abs_le]

/-- C10: in every run, each `publish` call comes later in the trace of `main` than every
visualizer call, the `MainLoop` construction, both observer registrations and the call
of `Start()`, all of which do occur; and when `Start()` never returns, nothing is
published. -/
theorem C10_no_publish_before_start_returns (env : Env) (fuel : Nat) :
    (∀ (i j : Nat) (topic data : String) (c : Call),
        (main env fuel)[i]? = some (.publish topic data) → (main env fuel)[j]? = some c →
        (c.isVisualizerCall = true ∨ c.loopArgs?.isSome = true ∨ c.observer?.isSome = true
          ∨ c = .start) →
        j < i)
    ∧ (env.startReturns = false → published (main env fuel) = [])
    ∧ (main env fuel).filterMap Call.loopArgs? = [(timestep, 4)]
    ∧ (main env fuel).filterMap Call.observer? = [.TimerEvent, .KeyPressEvent]
    ∧ (main env fuel).filter (fun c => decide (c = Call.start)) = [Call.start]
    ∧ (main env fuel).filter Call.isVisualizerCall ≠ [] := by
  refine ⟨?_, published_main_stuck env fuel, loopArgs_main env fuel, observers_main env fuel,
    starts_main env fuel, by rw [visualizerCalls_main]; simp⟩
  intro i j topic data c hi hj hc
  unfold main at hi hj
  have hi' : (setup env).length ≤ i := by
    by_contra hlt
    rw [List.getElem?_append_left (by omega)] at hi
    have := setup_not_loopCall env _ (List.getElem?_mem hi)
    simp [Call.isLoopCall] at this
  have hj' : j < (setup env).length := by
    by_contra hge
    rw [List.getElem?_append_right (by omega)] at hj
    have hmem := List.getElem?_mem hj
    have hl : c.isLoopCall = true := by
      split at hmem
      · exact publishLoop_isLoopCall _ _ _ _ c hmem
      · simp at hmem
    rcases hc with h | h | h | h <;> cases c <;>
      simp_all [Call.isLoopCall, Call.isVisualizerCall, Call.loopArgs?, Call.observer?]
  omega


/-! ## Two concrete runs -/

/-- The run `talker` in which forward kinematics fails and `Start()` never returns: no pose
call, and the trace ends with `Start()`. -/
theorem main_envStuck :
    main envStuck 2 =
      [.rosInit ["talker"] "talker", .nodeHandle, .advertise "chatter" 1000,
       .rate (Double.lit 10 0), .visualizer, .initScene 4,
       .tdcrModelDVS ⟨[Double.lit 1 1, Double.lit 1 1], 8, [Double.lit 6 3, Double.lit 5 3],
         Matrix4d.Identity⟩,
       .cout "Setting up assignment 4...\n",
       .cout "Choose control scenario - (0) TDCR or (1) CTCR: ", .cout "\n",
       .forward_kinematics [Double.negate (Double.lit 5 3), Double.lit 25 4],
       .globalWarningDisplayOff, .mainLoop (Double.lit 1 2) 4, .interactorNew,
       .getRenderWindow, .setRenderWindow, .updateSize 1200 700, .styleNew,
       .setInteractorStyle, .interactorInit, .createRepeatingTimer 10,
       .addObserver .TimerEvent, .addObserver .KeyPressEvent, .start] := by
  have hper : Double.toULong (Double.mul timestep (Double.lit 1000 0)) = 10 := by
    rw [mul_timestep]; decide
  unfold main
  rw [setup_eq, hper]
  rfl

/-- The run `talker zz x` in which `ros::ok()` holds three times: three messages, stamped
0, 1, 2, and the loop ends at the fourth evaluation of `ros::ok()`. -/
theorem main_envThree :
    (main envThree 5).drop 26 =
      [.rosOk true, .rosInfo "hello world 0", .publish "chatter" "hello world 0", .spinOnce,
       .sleep,
       .rosOk true, .rosInfo "hello world 1", .publish "chatter" "hello world 1", .spinOnce,
       .sleep,
       .rosOk true, .rosInfo "hello world 2", .publish "chatter" "hello world 2", .spinOnce,
       .sleep,
       .rosOk false] := by
  unfold main
  rw [setup_eq]
  decide

end RosMain
